import Mathlib

/-!
Shallow embedding of the data-preparation pipeline of src/app.py
(hydropower dashboard).  A pandas DataFrame cell is modelled by `Cell`:
absent (empty cell or NA token, i.e. NaN), a numeric value, or
non-numeric text (pandas read_csv keeps unparsable text as a string in an
object column).  Columns on which the script performs arithmetic or
comparisons after coercion are modelled as `Option ℚ` (none = NaN); the
res_vol_km3 column is modelled as numeric-or-missing, since the script
multiplies it without coercing it.  The country-name to ISO3 lookup
(pycountry) is an injected pure function `String → Option String`.
-/

namespace Hydro

/-- A raw CSV cell: missing (NaN), numeric, or non-numeric text. -/
inductive Cell where
  | na : Cell
  | num : ℚ → Cell
  | text : String → Cell
deriving DecidableEq

/-- Whether a cell is non-missing (survives dropna). -/
def Cell.isPresent : Cell → Bool
  | .na => false
  | _ => true

/-- Whether a cell holds a numeric value. -/
def Cell.isNum : Cell → Bool
  | .num _ => true
  | _ => false

/-- pandas pd.to_numeric with errors=coerce on one cell: numbers pass
through, text and missing become missing. -/
def toNumericCoerce : Cell → Option ℚ
  | .num q => some q
  | _ => Option.none

/-- One row of the input CSV GloHydroRes_vs1.csv, as read by read_csv. -/
structure RawRow where
  country : Option String
  name : Option String
  year : Cell
  capacity_mw : Cell
  plant_lat : Cell
  plant_lon : Cell
  res_vol_km3 : Option ℚ
deriving DecidableEq

/-- One row of the cleaned table produced by load_data in src/app.py:
year and capacity_mw coerced to numeric, res_vol_mcm and Country_Iso3
derived, coordinates kept exactly as read. -/
structure Row where
  country : Option String
  name : Option String
  year : Option ℚ
  capacity_mw : Option ℚ
  plant_lat : Cell
  plant_lon : Cell
  res_vol_km3 : Option ℚ
  res_vol_mcm : Option ℚ
  Country_Iso3 : Option String
deriving DecidableEq

/-- Elementwise series multiplication by 1000 where missing stays missing
(NaN times 1000 is NaN), embedding line 20 of src/app.py. -/
def optMul1000 : Option ℚ → Option ℚ
  | Option.none => Option.none
  | some q => some (q * 1000)

/-- The per-row column transformations of load_data (lines 18-28 of
src/app.py): coerce year and capacity_mw, derive res_vol_mcm, resolve
Country_Iso3 via the injected lookup lk. -/
def processRow (lk : String → Option String) (r : RawRow) : Row where
  country := r.country
  name := r.name
  year := toNumericCoerce r.year
  capacity_mw := toNumericCoerce r.capacity_mw
  plant_lat := r.plant_lat
  plant_lon := r.plant_lon
  res_vol_km3 := r.res_vol_km3
  res_vol_mcm := optMul1000 r.res_vol_km3
  Country_Iso3 := r.country.bind lk

/-- load_data of src/app.py (lines 16-30): column transformations followed
by dropna on plant_lat and plant_lon. -/
def load_data (lk : String → Option String) (raws : List RawRow) : List Row :=
  (raws.map (processRow lk)).filter
    (fun r => r.plant_lat.isPresent && r.plant_lon.isPresent)

/-- pandas series comparison x >= v: False when x is NaN. -/
def optGe (x : Option ℚ) (v : ℚ) : Bool :=
  match x with
  | Option.none => false
  | some q => v ≤ q

/-- pandas series comparison x <= v: False when x is NaN. -/
def optLe (x : Option ℚ) (v : ℚ) : Bool :=
  match x with
  | Option.none => false
  | some q => q ≤ v

/-- The bubble-map filter (lines 99-102 of src/app.py): keep rows with
res_vol_mcm >= min_volume and capacity_mw >= min_capacity. -/
def df_bubble (min_volume min_capacity : ℚ) (rows : List Row) : List Row :=
  rows.filter (fun r => optGe r.res_vol_mcm min_volume && optGe r.capacity_mw min_capacity)

/-- The boolean mask of the animated-map filter (lines 182-184):
capacity_mw >= min_capacity and year within the selected range. -/
def animMask (min_capacity : ℚ) (yr : ℚ × ℚ) (r : Row) : Bool :=
  optGe r.capacity_mw min_capacity && optGe r.year yr.1 && optLe r.year yr.2

/-- The dropna of line 185 on year, plant_lat, plant_lon, capacity_mw. -/
def animDropna (r : Row) : Bool :=
  r.year.isSome && r.plant_lat.isPresent && r.plant_lon.isPresent && r.capacity_mw.isSome

/-- The animated-map filter df_anim (lines 181-185 of src/app.py): mask on
capacity and year range, then dropna. -/
def df_anim (min_capacity : ℚ) (yr : ℚ × ℚ) (rows : List Row) : List Row :=
  (rows.filter (animMask min_capacity yr)).filter animDropna

/-- pandas group sum over possibly-missing values: NaN entries contribute
zero (sum with the default min_count=0). -/
def sumOpt (xs : List (Option ℚ)) : ℚ :=
  (xs.map (fun x => x.getD 0)).sum

/-- pandas groupby(key, as_index=False)[val].sum(): rows whose key is not
fully present are dropped (the default dropna=True), the distinct keys are
sorted ascending (the default sort=True), and each group sums its values
with missing values contributing zero. -/
def groupbySum {κ : Type} [DecidableEq κ] (r : κ → κ → Prop) [DecidableRel r]
    (key : Row → Option κ) (val : Row → Option ℚ) (rows : List Row) : List (κ × ℚ) :=
  ((rows.filterMap key).dedup.insertionSort r).map
    (fun k => (k, sumOpt ((rows.filter (fun row => key row = some k)).map val)))

/-- Lexicographic order on pairs, the multi-key group ordering of pandas. -/
def lexLe {α β : Type} [LinearOrder α] [LinearOrder β] (a b : α × β) : Prop :=
  a.1 < b.1 ∨ (a.1 = b.1 ∧ a.2 ≤ b.2)

instance {α β : Type} [LinearOrder α] [LinearOrder β] :
    DecidableRel (lexLe (α := α) (β := β)) :=
  fun a b => inferInstanceAs (Decidable (a.1 < b.1 ∨ (a.1 = b.1 ∧ a.2 ≤ b.2)))

instance {α β : Type} [LinearOrder α] [LinearOrder β] :
    IsTrans (α × β) lexLe where
  trans a b c hab hbc := by
    rcases hab with h1 | ⟨h1, h2⟩ <;> rcases hbc with h3 | ⟨h3, h4⟩
    · exact Or.inl (lt_trans h1 h3)
    · exact Or.inl (h3 ▸ h1)
    · exact Or.inl (h1 ▸ h3)
    · exact Or.inr ⟨h1.trans h3, le_trans h2 h4⟩

instance {α β : Type} [LinearOrder α] [LinearOrder β] :
    IsTotal (α × β) lexLe where
  total a b := by
    rcases lt_trichotomy a.1 b.1 with h | h | h
    · exact Or.inl (Or.inl h)
    · rcases le_total a.2 b.2 with h2 | h2
      · exact Or.inl (Or.inr ⟨h, h2⟩)
      · exact Or.inr (Or.inr ⟨h.symm, h2⟩)
    · exact Or.inr (Or.inl h)

/-- country_cap (line 81 of src/app.py): groupby Country_Iso3, sum of
capacity_mw. -/
def country_cap (rows : List Row) : List (String × ℚ) :=
  groupbySum (· ≤ ·) (fun r => r.Country_Iso3) (fun r => r.capacity_mw) rows

/-- The (country, name) grouping key; missing when either part is. -/
def keyCN (r : Row) : Option (String × String) :=
  match r.country, r.name with
  | some c, some n => some (c, n)
  | _, _ => Option.none

/-- sun (line 124 of src/app.py): groupby (country, name), sum of
capacity_mw. -/
def sun (rows : List Row) : List ((String × String) × ℚ) :=
  groupbySum lexLe keyCN (fun r => r.capacity_mw) rows

/-- df_ts (line 141 of src/app.py): dropna on year, country, capacity_mw. -/
def df_ts (rows : List Row) : List Row :=
  rows.filter (fun r => r.year.isSome && r.country.isSome && r.capacity_mw.isSome)

/-- The (country, year) grouping key; missing when either part is. -/
def keyCY (r : Row) : Option (String × ℚ) :=
  match r.country, r.year with
  | some c, some y => some (c, y)
  | _, _ => Option.none

/-- yearly_country (line 142 of src/app.py): groupby (country, year) over
df_ts, sum of capacity_mw. -/
def yearly_country (rows : List Row) : List ((String × ℚ) × ℚ) :=
  groupbySum lexLe keyCY (fun r => r.capacity_mw) (df_ts rows)

/-- pandas column max, skipping missing values; missing when the column
has no present value. -/
def colMax (f : Row → Option ℚ) (rows : List Row) : Option ℚ :=
  (rows.filterMap f).max?

/-- pandas column min, skipping missing values. -/
def colMin (f : Row → Option ℚ) (rows : List Row) : Option ℚ :=
  (rows.filterMap f).min?

/-- Python int() on a rational: truncation toward zero. -/
def pyInt (q : ℚ) : ℤ :=
  q.num.tdiv q.den

/-- The capacity slider of lines 39-45 of src/app.py: min_value=0,
max_value=int(df[capacity_mw].max()).  Missing when the column max is
(int of NaN would raise). -/
def min_capacity_slider (rows : List Row) : Option (ℤ × ℤ) :=
  (colMax (fun r => r.capacity_mw) rows).map (fun m => (0, pyInt m))

/-- The reservoir-volume slider of lines 47-53: min_value=0,
max_value=int(df[res_vol_mcm].max() / 1000); the selected value is later
multiplied by 1000. -/
def min_volume_slider (rows : List Row) : Option (ℤ × ℤ) :=
  (colMax (fun r => r.res_vol_mcm) rows).map (fun m => (0, pyInt (m / 1000)))

/-- The year slider of lines 55-63: min_value=int(df[year].min()),
max_value=int(df[year].max()). -/
def year_range_slider (rows : List Row) : Option (ℤ × ℤ) :=
  match colMin (fun r => r.year) rows, colMax (fun r => r.year) rows with
  | some a, some b => some (pyInt a, pyInt b)
  | _, _ => Option.none

/-- A lookup with the single entry China to CHN, the concrete injected
country resolver used in witnesses. -/
def lk0 : String → Option String :=
  fun s => if s = "China" then some "CHN" else Option.none

/-- Fixture row A of the spec: China, 2005, 1200 MW, coordinates present. -/
def rawA : RawRow where
  country := some "China"
  name := some "A"
  year := .num 2005
  capacity_mw := .num 1200
  plant_lat := .num 35
  plant_lon := .num 104
  res_vol_km3 := Option.none

/-- Fixture row B of the spec: unrecognized country, everything else
missing. -/
def rawB : RawRow where
  country := some "X"
  name := some "B"
  year := .na
  capacity_mw := .na
  plant_lat := .na
  plant_lon := .na
  res_vol_km3 := Option.none

/-- Fixture row with a present reservoir volume of 2 km cubed. -/
def rawV : RawRow where
  country := some "China"
  name := some "V"
  year := .num 2005
  capacity_mw := .num 1200
  plant_lat := .num 35
  plant_lon := .num 104
  res_vol_km3 := some 2

/-- Fixture raw row with non-numeric text in the year cell. -/
def rawTextYear : RawRow where
  country := some "China"
  name := some "T"
  year := .text "n/a"
  capacity_mw := .num 50
  plant_lat := .num 1
  plant_lon := .num 2
  res_vol_km3 := Option.none

/-- Fixture raw row whose plant_lat is present but non-numeric text and
whose plant_lon is numeric. -/
def rawBadLat : RawRow where
  country := some "China"
  name := some "C"
  year := .num 2001
  capacity_mw := .num 10
  plant_lat := .text "abc"
  plant_lon := .num 0
  res_vol_km3 := Option.none

/-- Fixture cleaned row with year 2005. -/
def row2005 : Row where
  country := some "China"
  name := some "A"
  year := some 2005
  capacity_mw := some 1200
  plant_lat := .num 35
  plant_lon := .num 104
  res_vol_km3 := Option.none
  res_vol_mcm := Option.none
  Country_Iso3 := some "CHN"

/-- Fixture cleaned row with year 1995. -/
def row1995 : Row where
  country := some "China"
  name := some "B"
  year := some 1995
  capacity_mw := some 1200
  plant_lat := .num 35
  plant_lon := .num 104
  res_vol_km3 := Option.none
  res_vol_mcm := Option.none
  Country_Iso3 := some "CHN"

/-- Fixture cleaned row whose capacity_mw is missing. -/
def rowNoCap : Row where
  country := some "China"
  name := some "M"
  year := some 2005
  capacity_mw := Option.none
  plant_lat := .num 35
  plant_lon := .num 104
  res_vol_km3 := Option.none
  res_vol_mcm := some 5
  Country_Iso3 := some "CHN"

/-- Fixture cleaned row with capacity 1200, volume 2000, year 2005. -/
def rowCap1200 : Row where
  country := some "China"
  name := some "P"
  year := some 2005
  capacity_mw := some 1200
  plant_lat := .num 35
  plant_lon := .num 104
  res_vol_km3 := Option.none
  res_vol_mcm := some 2000
  Country_Iso3 := some "CHN"

/-- Fixture cleaned row with capacity 500, volume 500, year 1995. -/
def rowCap500 : Row where
  country := some "China"
  name := some "Q"
  year := some 1995
  capacity_mw := some 500
  plant_lat := .num 36
  plant_lon := .num 105
  res_vol_km3 := Option.none
  res_vol_mcm := some 500
  Country_Iso3 := some "CHN"

/-- The key column of a grouped table is the sorted deduplication of the
present keys. -/
theorem groupbySum_map_fst {κ : Type} [DecidableEq κ] (r : κ → κ → Prop) [DecidableRel r]
    (key : Row → Option κ) (val : Row → Option ℚ) (rows : List Row) :
    (groupbySum r key val rows).map Prod.fst =
      (rows.filterMap key).dedup.insertionSort r := by
  unfold groupbySum
  induction (rows.filterMap key).dedup.insertionSort r with
  | nil => rfl
  | cons a t ih => simpa using ih

/-- A key appears in the grouped table iff some row carries it. -/
theorem mem_groupbySum_keys {κ : Type} [DecidableEq κ] (r : κ → κ → Prop) [DecidableRel r]
    (key : Row → Option κ) (val : Row → Option ℚ) (rows : List Row) (k : κ) :
    k ∈ (groupbySum r key val rows).map Prod.fst ↔ ∃ row ∈ rows, key row = some k := by
  rw [groupbySum_map_fst, List.mem_insertionSort, List.mem_dedup, List.mem_filterMap]

/-- The key column of a grouped table has no duplicates. -/
theorem nodup_groupbySum_keys {κ : Type} [DecidableEq κ] (r : κ → κ → Prop) [DecidableRel r]
    (key : Row → Option κ) (val : Row → Option ℚ) (rows : List Row) :
    ((groupbySum r key val rows).map Prod.fst).Nodup := by
  rw [groupbySum_map_fst]
  exact (List.perm_insertionSort r _).nodup_iff.2 (List.nodup_dedup _)

/-- The value stored for a key is the sum of the values of its rows. -/
theorem groupbySum_value {κ : Type} [DecidableEq κ] (r : κ → κ → Prop) [DecidableRel r]
    (key : Row → Option κ) (val : Row → Option ℚ) (rows : List Row) (k : κ) (v : ℚ)
    (h : (k, v) ∈ groupbySum r key val rows) :
    v = sumOpt ((rows.filter (fun row => key row = some k)).map val) := by
  unfold groupbySum at h
  obtain ⟨a, -, ha⟩ := List.mem_map.1 h
  obtain ⟨h1, h2⟩ := Prod.mk.injEq .. ▸ ha
  exact h1 ▸ h2.symm

/-- Dropping the rows with a missing key does not change the present
keys. -/
theorem filterMap_filter_isSome {κ : Type} (key : Row → Option κ) (rows : List Row) :
    (rows.filter (fun row => (key row).isSome)).filterMap key = rows.filterMap key := by
  induction rows with
  | nil => rfl
  | cons a t ih => cases h : key a <;> simp [List.filter_cons, h, ih]

/-- Dropping the rows with a missing key does not change any key group. -/
theorem filter_key_filter_isSome {κ : Type} [DecidableEq κ]
    (key : Row → Option κ) (rows : List Row) (k : κ) :
    (rows.filter (fun row => (key row).isSome)).filter (fun row => key row = some k) =
      rows.filter (fun row => key row = some k) := by
  induction rows with
  | nil => rfl
  | cons a t ih => cases h : key a <;> simp [List.filter_cons, h, ih]

/-- Grouping ignores rows whose key is missing. -/
theorem groupbySum_filter_isSome {κ : Type} [DecidableEq κ] (r : κ → κ → Prop) [DecidableRel r]
    (key : Row → Option κ) (val : Row → Option ℚ) (rows : List Row) :
    groupbySum r key val (rows.filter (fun row => (key row).isSome)) =
      groupbySum r key val rows := by
  unfold groupbySum
  rw [filterMap_filter_isSome]
  refine List.map_congr_left fun k _ => ?_
  rw [filter_key_filter_isSome]

end Hydro

namespace Hydro

/-- C1 counterexample: a raw row whose plant_lat is present but not
numeric-coercible still appears in the cleaned table (load_data never
coerces the coordinate columns), contradicting the claim that a row
appears only when both coordinates are numeric-coercible. -/
theorem load_keeps_noncoercible_coordinate :
    (load_data lk0 [rawBadLat]).length = 1 ∧ rawBadLat.plant_lat.isNum = false :=
  ⟨rfl, rfl⟩

/-- C1 amended: a row appears in the cleaned table iff both coordinate
fields are present (non-missing); presence, not numeric-coercibility, is
what dropna checks, and no other rows are dropped. -/
theorem load_data_eq_filter (lk : String → Option String) (raws : List RawRow) :
    load_data lk raws =
      (raws.filter (fun r => r.plant_lat.isPresent && r.plant_lon.isPresent)).map
        (processRow lk) := by
  unfold load_data
  rw [List.filter_map]
  rfl

/-- C2: country_cap has exactly one row per distinct resolved ISO3 code
present in the table; the capacity of the row for a code is the sum of
capacity_mw over rows whose resolved code matches, missing capacities
contributing zero; rows with a missing code contribute to no output row. -/
theorem country_cap_spec (rows : List Row) :
    ((country_cap rows).map Prod.fst).Nodup ∧
    (∀ k : String, k ∈ (country_cap rows).map Prod.fst ↔
      ∃ r ∈ rows, r.Country_Iso3 = some k) ∧
    (∀ k v, (k, v) ∈ country_cap rows →
      v = sumOpt ((rows.filter (fun r => r.Country_Iso3 = some k)).map
        (fun r => r.capacity_mw))) ∧
    country_cap (rows.filter (fun r => r.Country_Iso3.isSome)) = country_cap rows := by
  refine ⟨nodup_groupbySum_keys _ _ _ _, fun k => mem_groupbySum_keys _ _ _ _ _,
    fun k v h => groupbySum_value _ _ _ _ _ _ h, groupbySum_filter_isSome _ _ _ _⟩

theorem country_cap_spec_witness :
    "CHN" ∈ (country_cap (load_data lk0 [rawA, rawB])).map Prod.fst :=
  ((country_cap_spec (load_data lk0 [rawA, rawB])).2.1 "CHN").2
    ⟨processRow lk0 rawA, by decide, rfl⟩

/-- C3: both filters are idempotent: applying the same filter twice with
the same parameters yields the same table as applying it once. -/
theorem filter_idempotent (min_volume min_capacity : ℚ) (yr : ℚ × ℚ) (rows : List Row) :
    df_bubble min_volume min_capacity (df_bubble min_volume min_capacity rows) =
      df_bubble min_volume min_capacity rows ∧
    df_anim min_capacity yr (df_anim min_capacity yr rows) =
      df_anim min_capacity yr rows := by
  constructor
  · exact List.filter_eq_self.2 fun r hr => (List.mem_filter.1 hr).2
  · unfold df_anim
    have h1 : (List.filter animDropna (List.filter (animMask min_capacity yr) rows)).filter
        (animMask min_capacity yr) =
        List.filter animDropna (List.filter (animMask min_capacity yr) rows) :=
      List.filter_eq_self.2 fun r hr => (List.mem_filter.1 (List.mem_filter.1 hr).1).2
    have h2 : (List.filter animDropna (List.filter (animMask min_capacity yr) rows)).filter
        animDropna =
        List.filter animDropna (List.filter (animMask min_capacity yr) rows) :=
      List.filter_eq_self.2 fun r hr => (List.mem_filter.1 hr).2
    rw [h1, h2]

/-- C4 counterexample: with observed capacities 500 and 1200 the capacity
slider offers the range [0, 1200]: its lower bound is the constant 0,
which lies strictly below the observed minimum 500, so the selectable
range is not bounded by the observed minimum of capacity_mw. -/
theorem capacity_slider_ignores_observed_min :
    min_capacity_slider [rowCap1200, rowCap500] = some (0, 1200) ∧
    colMin (fun r => r.capacity_mw) [rowCap1200, rowCap500] = some 500 ∧
    (0 : ℤ) ≠ pyInt 500 ∧ (0 : ℤ) < pyInt 500 := by
  refine ⟨by decide, by decide, by decide, by decide⟩

/-- C4 amended: the year slider is bounded by the truncated observed
min/max of year; the capacity and reservoir-volume sliders instead run
from the constant 0 up to the truncated observed maximum (for the volume,
the maximum of res_vol_mcm divided by 1000, the selected value being
rescaled by 1000 afterwards). -/
theorem slider_ranges (rows : List Row) :
    (∀ m, colMax (fun r => r.capacity_mw) rows = some m →
      min_capacity_slider rows = some (0, pyInt m)) ∧
    (∀ m, colMax (fun r => r.res_vol_mcm) rows = some m →
      min_volume_slider rows = some (0, pyInt (m / 1000))) ∧
    (∀ a b, colMin (fun r => r.year) rows = some a →
      colMax (fun r => r.year) rows = some b →
      year_range_slider rows = some (pyInt a, pyInt b)) := by
  refine ⟨fun m hm => ?_, fun m hm => ?_, fun a b ha hb => ?_⟩
  · rw [min_capacity_slider, hm]; rfl
  · rw [min_volume_slider, hm]; rfl
  · rw [year_range_slider, ha, hb]

theorem slider_ranges_witness :
    min_capacity_slider [rowCap1200, rowCap500] = some (0, pyInt 1200) ∧
    year_range_slider [rowCap1200, rowCap500] = some (pyInt 1995, pyInt 2005) :=
  ⟨(slider_ranges [rowCap1200, rowCap500]).1 1200 (by decide),
    (slider_ranges [rowCap1200, rowCap500]).2.2 1995 2005 (by decide) (by decide)⟩

/-- C5: the year-range bounds of the animated-map filter are inclusive at
both ends: a row whose year is present and whose remaining filter
conditions hold is kept iff start <= year <= end. -/
theorem year_range_inclusive (min_capacity : ℚ) (yr : ℚ × ℚ) (rows : List Row)
    (r : Row) (y : ℚ) (hy : r.year = some y)
    (hcap : optGe r.capacity_mw min_capacity = true)
    (hlat : r.plant_lat.isPresent = true)
    (hlon : r.plant_lon.isPresent = true)
    (hc : r.capacity_mw.isSome = true) :
    r ∈ df_anim min_capacity yr rows ↔ r ∈ rows ∧ yr.1 ≤ y ∧ y ≤ yr.2 := by
  have hge : ∀ v : ℚ, optGe (some y) v = decide (v ≤ y) := fun v => rfl
  have hle : ∀ v : ℚ, optLe (some y) v = decide (y ≤ v) := fun v => rfl
  unfold df_anim
  rw [List.mem_filter, List.mem_filter]
  simp [animMask, animDropna, hy, hge, hle, hcap, hlat, hlon, hc, and_assoc]

theorem year_range_inclusive_witness :
    row2005 ∈ df_anim 100 (2000, 2010) [row2005] ∧
    row1995 ∉ df_anim 100 (2000, 2010) [row1995] := by
  constructor
  · exact (year_range_inclusive 100 (2000, 2010) [row2005] row2005 2005 rfl
      (by decide) rfl rfl rfl).mpr ⟨List.mem_singleton.mpr rfl, by norm_num, by norm_num⟩
  · intro hmem
    have h := (year_range_inclusive 100 (2000, 2010) [row1995] row1995 1995 rfl
      (by decide) rfl rfl rfl).mp hmem
    exact absurd h.2.1 (by norm_num)

/-- C6: for every table and threshold (zero included), a row missing a
value on a field the filter tests is excluded from that filter. -/
theorem missing_excluded (min_volume min_capacity : ℚ) (yr : ℚ × ℚ)
    (rows : List Row) (r : Row) :
    (r.res_vol_mcm = Option.none ∨ r.capacity_mw = Option.none →
      r ∉ df_bubble min_volume min_capacity rows) ∧
    (r.capacity_mw = Option.none ∨ r.year = Option.none →
      r ∉ df_anim min_capacity yr rows) := by
  constructor
  · intro h hmem
    have hp := (List.mem_filter.1 hmem).2
    rcases h with h | h <;> simp [optGe, h] at hp
  · intro h hmem
    have hp := (List.mem_filter.1 (List.mem_filter.1 hmem).1).2
    rcases h with h | h <;> simp [animMask, optGe, optLe, h] at hp

theorem missing_excluded_witness :
    rowNoCap ∉ df_bubble 0 0 [rowNoCap] :=
  (missing_excluded 0 0 (0, 0) [rowNoCap] rowNoCap).1 (Or.inr rfl)

/-- C7: load_data is total over raw tables; a non-numeric text cell in
year or capacity_mw is coerced to missing, and every other cell of the
row is retained unchanged (the other coerced column is still coerced). -/
theorem coerce_text_spec (lk : String → Option String) (raw : RawRow) :
    (∀ s, raw.year = Cell.text s → (processRow lk raw).year = Option.none) ∧
    (∀ s, raw.capacity_mw = Cell.text s → (processRow lk raw).capacity_mw = Option.none) ∧
    (processRow lk raw).country = raw.country ∧
    (processRow lk raw).name = raw.name ∧
    (processRow lk raw).plant_lat = raw.plant_lat ∧
    (processRow lk raw).plant_lon = raw.plant_lon ∧
    (processRow lk raw).res_vol_km3 = raw.res_vol_km3 := by
  refine ⟨fun s hs => ?_, fun s hs => ?_, rfl, rfl, rfl, rfl, rfl⟩ <;>
    simp [processRow, toNumericCoerce, hs]

theorem coerce_text_spec_witness :
    (processRow lk0 rawTextYear).year = Option.none :=
  (coerce_text_spec lk0 rawTextYear).1 "n/a" rfl

/-- C8: every loaded row has res_vol_mcm equal to res_vol_km3 * 1000 when
the source field is present, and missing res_vol_mcm when it is missing. -/
theorem res_vol_mcm_spec (lk : String → Option String) (raws : List RawRow) (r : Row)
    (hr : r ∈ load_data lk raws) :
    (∀ q : ℚ, r.res_vol_km3 = some q → r.res_vol_mcm = some (q * 1000)) ∧
    (r.res_vol_km3 = Option.none → r.res_vol_mcm = Option.none) := by
  obtain ⟨hmem, -⟩ := List.mem_filter.1 hr
  obtain ⟨raw, -, rfl⟩ := List.mem_map.1 hmem
  cases h : raw.res_vol_km3 <;>
    simp [processRow, optMul1000, h]

theorem res_vol_mcm_spec_witness :
    (processRow lk0 rawV).res_vol_mcm = some (2 * 1000) :=
  (res_vol_mcm_spec lk0 [rawV] (processRow lk0 rawV)
    (List.mem_singleton.mpr rfl)).1 2 rfl

/-- C9: each filter output is a subsequence of its input table: only input
rows, each at most once, in order, with all fields unchanged. -/
theorem filter_sublist_input (min_volume min_capacity : ℚ) (yr : ℚ × ℚ) (rows : List Row) :
    (df_bubble min_volume min_capacity rows).Sublist rows ∧
    (df_anim min_capacity yr rows).Sublist rows :=
  ⟨List.filter_sublist rows, (List.filter_sublist _).trans (List.filter_sublist rows)⟩

/-- C10: for every input table, each aggregation output is sorted in
ascending order of its grouping key(s), multi-key groupings
lexicographically. -/
theorem aggregations_sorted (rows : List Row) :
    ((country_cap rows).map Prod.fst).Sorted (· ≤ ·) ∧
    ((sun rows).map Prod.fst).Sorted lexLe ∧
    ((yearly_country rows).map Prod.fst).Sorted lexLe := by
  unfold country_cap sun yearly_country
  refine ⟨?_, ?_, ?_⟩ <;> rw [groupbySum_map_fst] <;>
    exact List.sorted_insertionSort _ _

end Hydro
